import Mathlib

/-!
Verification of the lock state-reconciliation and keepalive engine of
`custom_components/tuya_local_ble/lock.py` (class `TuyaBLELock`).

Encoding conventions, mirroring the Python source exactly:
* `current_state : Option Bool` — `some true` = locked, `some false` =
  unlocked, `none` = unknown (the source comment: True -> locked,
  False -> unlocked, None -> unknown).
* `target_state : Option Bool` — the requested intent, `none` = unset.
* `commanded : Bool` — the `_commanded` flag (spec's `commandPending`).
* `commanded_timer : Option Int` — the `_commanded_timer` timestamp in
  seconds (spec's `commandIssuedAt`); `none` mirrors Python `None`,
  which is the only falsy value a `datetime`-typed field can take, so
  the source's `if self._commanded_timer` test is a `none` test.
* `isjammed : Bool` — the `_isjammed` flag.
* Time is modelled as `Int` seconds; `datetime.now()` becomes an
  explicit `now : Int` argument, and `timedelta(seconds=12)` becomes
  `+ 12`.
* The status-datapoint lookup `self._device.datapoints[dp_id]` is
  modelled as an `Option Bool` argument (the datapoint's boolean value
  when present). Modelled from the spec: the datapoint store lives in
  the repository's `tuya_ble` module, which is not part of the given
  sources; §6 specifies its lookup as `get(id) -> value | absent`,
  which the source guards with `if datapoint:`, so an absent datapoint
  is the `none` case.
-/

/-- The per-product configuration record `TuyaBLELockMapping` from the
source (only the fields the engine logic reads). -/
structure TuyaBLELockMapping where
  dp_id : Nat
  dp_id_lock : Nat
  dp_id_unlock : Nat
  dp_id_nop : Nat
  keep_connect_timer : Nat
  keep_connect : Bool
  deriving DecidableEq, Repr

/-- The concrete Gimdow Smart Lock mapping (`jtmspro` / `rlyxv7pe`)
from the source's `mapping` table. -/
def gimdowMapping : TuyaBLELockMapping :=
  { dp_id := 47
    dp_id_lock := 46
    dp_id_unlock := 6
    dp_id_nop := 52
    keep_connect_timer := 60
    keep_connect := true }

/-- The mutable runtime state of a `TuyaBLELock` instance: the fields
set in `__init__` and mutated by `_set_lock_state` and
`update_device_state`. -/
structure LockEngine where
  current_state : Option Bool
  target_state : Option Bool
  commanded : Bool
  commanded_timer : Option Int
  isjammed : Bool
  deriving DecidableEq, Repr

/-- The field initialisation performed by `TuyaBLELock.__init__`:
`_current_state = None`, `_target_state = None`, `_commanded = False`,
`_commanded_timer = None`, `_isjammed = False`. -/
def initState : LockEngine :=
  { current_state := none
    target_state := none
    commanded := false
    commanded_timer := none
    isjammed := false }

/-- `is_locked` property: returns `self._current_state` unchanged
(True / False / None). -/
def is_locked (e : LockEngine) : Option Bool :=
  e.current_state

/-- `is_locking` property:
`self._current_state is False and self._target_state is True and self._commanded`. -/
def is_locking (e : LockEngine) : Bool :=
  e.current_state == some false && e.target_state == some true && e.commanded

/-- `is_unlocking` property:
`self._current_state is True and self._target_state is False and self._commanded`. -/
def is_unlocking (e : LockEngine) : Bool :=
  e.current_state == some true && e.target_state == some false && e.commanded

/-- `is_jammed` property: returns `self._isjammed`. -/
def is_jammed (e : LockEngine) : Bool :=
  e.isjammed

/-- The snapshot of derived attributes written by `_update_attrs`
(`_attr_is_locking`, `_attr_is_unlocking`, `_attr_is_locked`,
`_attr_is_jammed`). -/
structure Attrs where
  attr_is_locking : Bool
  attr_is_unlocking : Bool
  attr_is_locked : Option Bool
  attr_is_jammed : Bool
  deriving DecidableEq, Repr

/-- `_update_attrs`: recomputes every derived attribute from the
current engine state. -/
def update_attrs (e : LockEngine) : Attrs :=
  { attr_is_locking := is_locking e
    attr_is_unlocking := is_unlocking e
    attr_is_locked := is_locked e
    attr_is_jammed := is_jammed e }

/-- Result of one `_set_lock_state(want_locked)` call: the attribute
snapshot published (via `_update_attrs` + `async_write_ha_state`)
before the datapoint write is issued, the datapoint id the write of
`True` goes to, and the state of the engine once the call returns. -/
structure SetLockResult where
  published : Attrs
  write_dp : Nat
  final : LockEngine
  deriving DecidableEq, Repr

/-- `_set_lock_state(want_locked)` from the source, in program order:
sets `_target_state = want_locked`; calls `_update_attrs` and
publishes that snapshot; picks `dp_id_lock` or `dp_id_unlock` by
`want_locked` and issues the write of `True` there; and only then sets
`_commanded = True` and `_commanded_timer = datetime.now()`. -/
def set_lock_state (m : TuyaBLELockMapping) (e : LockEngine)
    (want_locked : Bool) (now : Int) : SetLockResult :=
  let e1 : LockEngine := { e with target_state := some want_locked }
  let snap := update_attrs e1
  let dp := if want_locked then m.dp_id_lock else m.dp_id_unlock
  let e2 : LockEngine :=
    { e1 with commanded := true, commanded_timer := some now }
  { published := snap, write_dp := dp, final := e2 }

/-- The reconciliation block of `update_device_state` that runs after
`_current_state` has been refreshed: the `if self._commanded:` body,
with its jam-timeout test `datetime.now() > self._commanded_timer +
timedelta(seconds=12)`. -/
def jam_step (e : LockEngine) (now : Int) : LockEngine :=
  if e.commanded then
    if e.target_state.isSome && (e.current_state != e.target_state) then
      match e.commanded_timer with
      | some t0 =>
        if now > t0 + 12 then
          { e with isjammed := true, commanded := false }
        else e
      | none => e
    else
      { e with commanded := false, isjammed := false }
  else e

/-- `update_device_state` from the source: looks up the status
datapoint (`dp`, absent = `none`); when present, stores
`False if datapoint.value else True` into `_current_state` and runs
the reconciliation block. When absent, the whole body is skipped. -/
def update_device_state (e : LockEngine) (dp : Option Bool)
    (now : Int) : LockEngine :=
  match dp with
  | none => e
  | some v =>
      jam_step { e with current_state := some (if v then false else true) } now

/-- One externally observable effect of `TuyaBLELock.__init__`, in the
order the constructor performs them. -/
inductive InitEvent where
  | updateAttrs : InitEvent
  | startTimer (seconds : Nat) : InitEvent
  | ensureDatapoint (dp_id : Nat) (default : Bool) : InitEvent
  deriving DecidableEq, Repr

/-- The effect sequence of `TuyaBLELock.__init__` after the field
initialisation: it calls `_update_attrs()`, and when
`mapping.keep_connect` it starts the keepalive `Timer` with delay
`keep_connect_timer` (whose body then loops with the same period) and
afterwards calls `datapoints.get_or_create(dp_id_nop, DT_BOOL, False)`. -/
def init_events (m : TuyaBLELockMapping) : List InitEvent :=
  [InitEvent.updateAttrs] ++
    (if m.keep_connect then
      [InitEvent.startTimer m.keep_connect_timer,
       InitEvent.ensureDatapoint m.dp_id_nop false]
    else [])

/-- Recognises the keepalive-timer start event. -/
def isStartTimer : InitEvent → Bool
  | InitEvent.startTimer _ => true
  | _ => false

/-- Recognises the keepalive-datapoint creation event. -/
def isEnsureDatapoint : InitEvent → Bool
  | InitEvent.ensureDatapoint _ _ => true
  | _ => false

/-- States reachable from a fresh `TuyaBLELock` by any interleaving of
command requests (`_set_lock_state`, reached from `async_lock` /
`async_unlock`) and status reconciliations (`update_device_state`). -/
inductive Reachable (m : TuyaBLELockMapping) : LockEngine → Prop where
  | init : Reachable m initState
  | request (e : LockEngine) (w : Bool) (now : Int) :
      Reachable m e → Reachable m (set_lock_state m e w now).final
  | report (e : LockEngine) (dp : Option Bool) (now : Int) :
      Reachable m e → Reachable m (update_device_state e dp now)

/-- `jam_step` never touches `current_state`. -/
theorem jam_step_current_state (e : LockEngine) (now : Int) :
    (jam_step e now).current_state = e.current_state := by
  unfold jam_step
  repeat' split
  all_goals rfl

/-- `jam_step` never touches `commanded_timer`. -/
theorem jam_step_timer (e : LockEngine) (now : Int) :
    (jam_step e now).commanded_timer = e.commanded_timer := by
  unfold jam_step
  repeat' split
  all_goals rfl

/-- `jam_step` never raises `commanded`: if the result has `commanded`
set, it was set already. -/
theorem jam_step_commanded_mono (e : LockEngine) (now : Int) :
    (jam_step e now).commanded = true → e.commanded = true := by
  unfold jam_step
  repeat' split
  all_goals simp_all

/-- `update_device_state` never touches `commanded_timer`. -/
theorem update_device_state_timer (e : LockEngine) (dp : Option Bool)
    (now : Int) :
    (update_device_state e dp now).commanded_timer = e.commanded_timer := by
  cases dp with
  | none => rfl
  | some v => exact jam_step_timer _ now

/-- `update_device_state` never raises `commanded`. -/
theorem update_device_state_commanded_mono (e : LockEngine)
    (dp : Option Bool) (now : Int) :
    (update_device_state e dp now).commanded = true → e.commanded = true := by
  cases dp with
  | none => exact fun h => h
  | some v => exact jam_step_commanded_mono _ now

/-- A state right after a command was issued and before any report
satisfied it: target locked, command pending since time 0, no jam. -/
def satReadyState : LockEngine :=
  { current_state := none
    target_state := some true
    commanded := true
    commanded_timer := some 0
    isjammed := false }

/-- A state right after a jam has been declared while trying to lock:
`jammed = true`, `commanded = false`, target still locked. -/
def jammedState : LockEngine :=
  { current_state := some false
    target_state := some true
    commanded := false
    commanded_timer := some 0
    isjammed := true }

/-- An idle unlocked state with no command ever issued. -/
def unlockedIdleState : LockEngine :=
  { current_state := some false
    target_state := none
    commanded := false
    commanded_timer := none
    isjammed := false }

/-- C8: a freshly constructed engine has `currentState = Unknown`
(`none`), `targetState = Unset` (`none`), `commandPending = false`,
`jammed = false`, and its derived attributes report
`isLocked = Unknown` (`none`), `isLocking = false`,
`isUnlocking = false`, `isJammed = false`. -/
theorem C8_initial_state :
    initState.current_state = none ∧ initState.target_state = none ∧
    initState.commanded = false ∧ initState.isjammed = false ∧
    update_attrs initState =
      { attr_is_locking := false
        attr_is_unlocking := false
        attr_is_locked := none
        attr_is_jammed := false } := by
  decide

/-- C3: a report with a stored status value of `true` sets
`currentState` to unlocked (`some false` in the source encoding) and a
value of `false` sets it to locked (`some true`): the inverted
polarity is exact, for every starting state and call time. -/
theorem C3_report_polarity (e : LockEngine) (now : Int) :
    (update_device_state e (some true) now).current_state = some false ∧
    (update_device_state e (some false) now).current_state = some true := by
  constructor
  all_goals
    simp only [update_device_state]
    rw [jam_step_current_state]
    simp

/-- C10: when the status-datapoint lookup yields an absent datapoint,
`update_device_state` is a complete no-op: the state, all five fields
included, is returned unchanged and no error is possible. -/
theorem C10_absent_noop (e : LockEngine) (now : Int) :
    update_device_state e none now = e := rfl

/-- C6: with `commandPending = false`, a report only updates
`currentState`: `jammed`, `commandPending`, `targetState` and
`commandIssuedAt` are all left unchanged (in particular `jammed` is
never set), regardless of elapsed time. -/
theorem C6_unsolicited_frame (e : LockEngine) (dp : Option Bool)
    (now : Int) (h : e.commanded = false) :
    (update_device_state e dp now).commanded = e.commanded ∧
    (update_device_state e dp now).isjammed = e.isjammed ∧
    (update_device_state e dp now).target_state = e.target_state ∧
    (update_device_state e dp now).commanded_timer = e.commanded_timer := by
  cases dp with
  | none => exact ⟨rfl, rfl, rfl, rfl⟩
  | some v => simp [update_device_state, jam_step, h]

/-- C6 witness: the frame condition at the fresh state with a `true`
report at time 1000. -/
theorem C6_unsolicited_frame_witness :
    initState.commanded = false ∧
    ((update_device_state initState (some true) 1000).commanded =
        initState.commanded ∧
      (update_device_state initState (some true) 1000).isjammed =
        initState.isjammed ∧
      (update_device_state initState (some true) 1000).target_state =
        initState.target_state ∧
      (update_device_state initState (some true) 1000).commanded_timer =
        initState.commanded_timer) :=
  ⟨rfl, C6_unsolicited_frame initState (some true) 1000 rfl⟩

/-- C4: with `commandPending = true`, when the mapped report value
matches `targetState` or `targetState` is unset, the command is
considered satisfied: `commandPending` and `jammed` are both cleared. -/
theorem C4_command_satisfied (e : LockEngine) (v : Bool) (now : Int)
    (hc : e.commanded = true)
    (hm : e.target_state = none ∨
      e.target_state = some (if v then false else true)) :
    (update_device_state e (some v) now).commanded = false ∧
    (update_device_state e (some v) now).isjammed = false := by
  rcases hm with hm | hm <;> simp [update_device_state, jam_step, hc, hm]

/-- C4 witness: a pending lock command satisfied by a `false` report
(which maps to locked). -/
theorem C4_command_satisfied_witness :
    satReadyState.commanded = true ∧
    (satReadyState.target_state = none ∨
      satReadyState.target_state = some (if false then false else true)) ∧
    (update_device_state satReadyState (some false) 5).commanded = false ∧
    (update_device_state satReadyState (some false) 5).isjammed = false :=
  ⟨rfl, Or.inr rfl,
    (C4_command_satisfied satReadyState false 5 rfl (Or.inr rfl)).1,
    (C4_command_satisfied satReadyState false 5 rfl (Or.inr rfl)).2⟩

/-- C2: with `commandPending = true`, `targetState` set,
`commandIssuedAt` set to `t0`, the mapped report value different from
the target and no jam yet, the report sets `jammed = true` and
`commandPending = false` exactly when `now > t0 + 12`; otherwise
`jammed` stays `false` and `commandPending` stays `true`. -/
theorem C2_jam_timeout (e : LockEngine) (v : Bool) (now t0 : Int)
    (tgt : Bool) (hc : e.commanded = true) (ht : e.target_state = some tgt)
    (htimer : e.commanded_timer = some t0)
    (hne : (if v then false else true) ≠ tgt) (hj : e.isjammed = false) :
    (now > t0 + 12 →
      (update_device_state e (some v) now).isjammed = true ∧
      (update_device_state e (some v) now).commanded = false) ∧
    (¬ now > t0 + 12 →
      (update_device_state e (some v) now).isjammed = false ∧
      (update_device_state e (some v) now).commanded = true) := by
  constructor <;> intro hnow <;> cases v <;> cases tgt <;>
    simp_all [update_device_state, jam_step] <;>
    rw [if_neg (by omega)] <;> exact ⟨rfl, rfl⟩

/-- C2 witness: a pending lock command with a mismatched report, once
at time 20 (past the 12-second window, jam) and the same bound also
evaluated on its non-elapsed side. -/
theorem C2_jam_timeout_witness :
    satReadyState.commanded = true ∧
    satReadyState.target_state = some true ∧
    satReadyState.commanded_timer = some 0 ∧
    ((if true then false else true) ≠ true) ∧
    satReadyState.isjammed = false ∧
    (((20 : Int) > 0 + 12 →
        (update_device_state satReadyState (some true) 20).isjammed = true ∧
        (update_device_state satReadyState (some true) 20).commanded = false) ∧
      (¬ (20 : Int) > 0 + 12 →
        (update_device_state satReadyState (some true) 20).isjammed = false ∧
        (update_device_state satReadyState (some true) 20).commanded = true)) :=
  ⟨rfl, rfl, rfl, by decide, rfl,
    C2_jam_timeout satReadyState true 20 0 true rfl rfl rfl (by decide) rfl⟩

/-- C7: in every state reachable from a fresh engine by any sequence
of command requests and status reports, a pending command implies the
issue timestamp is set. -/
theorem C7_pending_implies_timestamp (m : TuyaBLELockMapping)
    (e : LockEngine) (hr : Reachable m e) (hc : e.commanded = true) :
    e.commanded_timer.isSome = true := by
  induction hr with
  | init => simp [initState] at hc
  | request e' w now _ _ => simp [set_lock_state]
  | report e' dp now _ ih =>
      rw [update_device_state_timer]
      exact ih (update_device_state_commanded_mono e' dp now hc)

/-- C7 witness: the invariant at the state reached by one lock request
from the fresh engine. -/
theorem C7_pending_implies_timestamp_witness :
    Reachable gimdowMapping (set_lock_state gimdowMapping initState true 0).final ∧
    (set_lock_state gimdowMapping initState true 0).final.commanded = true ∧
    (set_lock_state gimdowMapping initState true 0).final.commanded_timer.isSome = true :=
  ⟨Reachable.request initState true 0 Reachable.init, rfl,
    C7_pending_implies_timestamp gimdowMapping _
      (Reachable.request initState true 0 Reachable.init) rfl⟩

/-- C1 counterexample: in the post-jam state (`jammed = true`,
`commandPending = false`, target locked), a later report of raw
`false` maps exactly to the target (locked), yet the jam is NOT
cleared: `jammed` remains `true`, refuting the claim that such a
report leaves `jammed = false`. -/
theorem C1_counterexample :
    jammedState.isjammed = true ∧ jammedState.commanded = false ∧
    jammedState.target_state = some true ∧
    (update_device_state jammedState (some false) 100).current_state =
      jammedState.target_state ∧
    ¬ (update_device_state jammedState (some false) 100).isjammed = false := by
  decide

/-- C1 amended: after a jam (`jammed = true`, `commandPending =
false`), a later report whose raw value maps to the current
`targetState` does NOT clear the jam: `jammed` stays `true`, because
the clearing branch only runs while `commandPending` is true. -/
theorem C1_jam_not_cleared (e : LockEngine) (v : Bool) (now : Int)
    (tgt : Bool) (hj : e.isjammed = true) (hc : e.commanded = false)
    (_ht : e.target_state = some tgt)
    (_hmatch : (if v then false else true) = tgt) :
    (update_device_state e (some v) now).isjammed = true := by
  simp [update_device_state, jam_step, hc, hj]

/-- C1 witness: the amended claim at the concrete post-jam state with
a matching report at time 100. -/
theorem C1_jam_not_cleared_witness :
    jammedState.isjammed = true ∧ jammedState.commanded = false ∧
    jammedState.target_state = some true ∧
    ((if false then false else true) = true) ∧
    (update_device_state jammedState (some false) 100).isjammed = true :=
  ⟨rfl, rfl, rfl, rfl,
    C1_jam_not_cleared jammedState false 100 true rfl rfl rfl rfl⟩

/-- C5 counterexample: from the idle unlocked state (no command
pending), `requestLock(true)` publishes, before the write, a snapshot
whose `isLocking` is `false` — not `true` as the claim states —
because `commandPending` is only set after the write. -/
theorem C5_counterexample :
    unlockedIdleState.current_state = some false ∧
    unlockedIdleState.commanded = false ∧
    ¬ (set_lock_state gimdowMapping unlockedIdleState true 0).published.attr_is_locking
      = true := by
  decide

/-- C5 amended: `requestLock` recomputes and publishes the derived
attributes before the write is issued, from the state with only
`targetState` updated; since `commandPending` is set only after the
write, the published snapshot shows `isLocking` (resp. `isUnlocking`)
exactly when a command was already pending before the call, and the
final state has `commandPending = true` with the timestamp set. -/
theorem C5_publish_before_write (m : TuyaBLELockMapping) (e : LockEngine)
    (w : Bool) (now : Int) :
    (set_lock_state m e w now).published =
      update_attrs { e with target_state := some w } ∧
    (set_lock_state m e w now).published.attr_is_locking =
      (e.current_state == some false && w && e.commanded) ∧
    (set_lock_state m e w now).published.attr_is_unlocking =
      (e.current_state == some true && !w && e.commanded) ∧
    (set_lock_state m e w now).final.commanded = true ∧
    (set_lock_state m e w now).final.commanded_timer = some now := by
  refine ⟨rfl, ?_, ?_, rfl, rfl⟩ <;> cases w <;>
    simp [set_lock_state, update_attrs, is_locking, is_unlocking, Bool.and_comm]

/-- C9 counterexample: for the Gimdow configuration (the only one with
keepalive), initialization starts the keepalive timer BEFORE creating
the keepalive datapoint, refuting the claimed ensure-then-start
order. -/
theorem C9_counterexample :
    gimdowMapping.keep_connect = true ∧
    init_events gimdowMapping =
      [InitEvent.updateAttrs, InitEvent.startTimer 60,
        InitEvent.ensureDatapoint 52 false] ∧
    (init_events gimdowMapping).findIdx isStartTimer <
      (init_events gimdowMapping).findIdx isEnsureDatapoint := by
  decide

/-- C9 amended: when `keep_connect` (the spec's `requiresKeepalive`)
is true, initialization first starts the periodic keepalive timer of
period `keep_connect_timer` and only then ensures the keepalive
datapoint exists with default boolean `false`. -/
theorem C9_timer_then_ensure (m : TuyaBLELockMapping)
    (h : m.keep_connect = true) :
    init_events m =
      [InitEvent.updateAttrs, InitEvent.startTimer m.keep_connect_timer,
        InitEvent.ensureDatapoint m.dp_id_nop false] := by
  simp [init_events, h]

/-- C9 witness: the amended ordering at the Gimdow configuration. -/
theorem C9_timer_then_ensure_witness :
    gimdowMapping.keep_connect = true ∧
    init_events gimdowMapping =
      [InitEvent.updateAttrs,
        InitEvent.startTimer gimdowMapping.keep_connect_timer,
        InitEvent.ensureDatapoint gimdowMapping.dp_id_nop false] :=
  ⟨rfl, C9_timer_then_ensure gimdowMapping rfl⟩
